import Mathlib

/-!
Shallow embedding of `src/api/index.py` (mileage-dashboard FastAPI service)
and verification of its specification claims.

Floats are modelled as `ℚ`; the opaque scikit-learn pipeline is a parameter
function; Python dicts over string keys are association lists with
insert-or-overwrite semantics.
-/

/-- A JSON value as it arrives in a request body (numbers, strings, booleans,
null); the subset relevant to the `CarInput` fields. -/
inductive JVal where
  | jnum (q : ℚ)
  | jstr (s : String)
  | jbool (b : Bool)
  | jnull
  deriving DecidableEq

/-- A cell value in the single-row pandas DataFrame handed to the pipeline:
numeric or string. -/
inductive FVal where
  | num (q : ℚ)
  | str (s : String)
  deriving DecidableEq

/-- `class FuelType(str, Enum)` — lines 118-122. -/
inductive FuelType where
  | Petrol | Diesel | CNG | Electric
  deriving DecidableEq

/-- The `.value` of a `FuelType` member (its string label). -/
def FuelType.value : FuelType → String
  | .Petrol => "Petrol"
  | .Diesel => "Diesel"
  | .CNG => "CNG"
  | .Electric => "Electric"

/-- `class TransmissionType(str, Enum)` — lines 124-126. -/
inductive TransmissionType where
  | Manual | Automatic
  deriving DecidableEq

/-- The `.value` of a `TransmissionType` member (its string label). -/
def TransmissionType.value : TransmissionType → String
  | .Manual => "Manual"
  | .Automatic => "Automatic"

/-- `class CarInput(BaseModel)` — lines 128-137. Floats as `ℚ`, `int` as `ℤ`. -/
structure CarInput where
  Total_km_driven : ℚ
  Brand : String
  Model : String
  Engine_cc : ℚ
  Fuel_type : FuelType
  City : String
  Transmission : TransmissionType
  Age_of_vehicle : ℚ
  Number_of_owners : ℤ
  deriving DecidableEq

/-- A raw request body for `POST /api/predict`: one JSON value per declared
`CarInput` field (a missing field would arrive as `jnull`; pydantic rejects it
as a type error either way). -/
structure RawCarInput where
  Total_km_driven : JVal
  Brand : JVal
  Model : JVal
  Engine_cc : JVal
  Fuel_type : JVal
  City : JVal
  Transmission : JVal
  Age_of_vehicle : JVal
  Number_of_owners : JVal
  deriving DecidableEq

/-- Python `dict` insertion on an association list: an existing key is
overwritten in place, a fresh key is appended (Python dicts preserve insertion
order and keep one entry per key). -/
def dictInsert {α : Type} : List (String × α) → String → α → List (String × α)
  | [], k, v => [(k, v)]
  | (a, b) :: rest, k, v =>
    if a = k then (k, v) :: rest else (a, b) :: dictInsert rest k v

/-- Python `dict` key lookup on an association list (first entry with the key;
under the `dictInsert` invariant keys are unique). -/
def dictFind? {α : Type} : List (String × α) → String → Option α
  | [], _ => none
  | (a, b) :: rest, k => if k = a then some b else dictFind? rest k

/-- Python `dict.get(key, default)`. -/
def dictGet {α : Type} (m : List (String × α)) (k : String) (d : α) : α :=
  (dictFind? m k).getD d

/-- Python `str.strip()`: remove whitespace from both ends. -/
def strip (s : String) : String :=
  ⟨((s.data.dropWhile Char.isWhitespace).reverse.dropWhile Char.isWhitespace).reverse⟩

/-- Python `str.lower()`: lowercase every character. -/
def lower (s : String) : String := ⟨s.data.map Char.toLower⟩

/-- The city-name normalisation used throughout the service:
`str(x).strip().lower()`. -/
def normKey (s : String) : String := lower (strip s)

/-- One row of `city_traffic_scores.csv` after the column-name cleanup of
lines 18-19: a CITY string and a TRAFFIC_SCORE integer. -/
structure CityRow where
  city : String
  traffic_score : ℤ
  deriving DecidableEq

/-- `city_map` — lines 21-24: a dict built by iterating the csv rows,
keyed by the normalised city name; duplicate keys overwrite. -/
def city_map (rows : List CityRow) : List (String × ℤ) :=
  rows.foldl (fun m r => dictInsert m (normKey r.city) r.traffic_score) []

/-- `DEFAULT_TRAFFIC_SCORE = 50` — line 26. -/
def DEFAULT_TRAFFIC_SCORE : ℤ := 50

/-- The lookup performed by `predict` — lines 153-156:
`city_map.get(data.City.strip().lower(), DEFAULT_TRAFFIC_SCORE)`. -/
def lookupCityScore (m : List (String × ℤ)) (city : String) : ℤ :=
  dictGet m (normKey city) DEFAULT_TRAFFIC_SCORE

/-- Python `str.title()` on the character list: the first character of every
alphabetic run is uppercased, the rest lowercased; the flag records whether the
previous character was non-alphabetic. -/
def titleChars : Bool → List Char → List Char
  | _, [] => []
  | sow, c :: cs =>
    if c.isAlpha then (if sow then c.toUpper else c.toLower) :: titleChars false cs
    else c :: titleChars true cs

/-- Python `str.title()`. -/
def titleCase (s : String) : String := ⟨titleChars true s.data⟩

/-- `get_cities` — lines 142-144: `sorted([c.title() for c in city_map.keys()])`
(Python `sorted` = stable ascending sort, embedded as insertion sort). -/
def get_cities (m : List (String × ℤ)) : List String :=
  List.insertionSort (· ≤ ·) (m.map (fun p => titleCase p.1))

/-- Python `round` tie-breaking to the nearest integer: round half to even
(banker's rounding). -/
def roundHalfEven (q : ℚ) : ℤ :=
  if q - ⌊q⌋ < 1 / 2 then ⌊q⌋
  else if 1 / 2 < q - ⌊q⌋ then ⌊q⌋ + 1
  else if ⌊q⌋ % 2 = 0 then ⌊q⌋ else ⌊q⌋ + 1

/-- Python `round(x, n)`: round to `n` decimal places, half to even. -/
def roundTo (n : ℕ) (q : ℚ) : ℚ := (roundHalfEven (q * 10 ^ n) : ℚ) / 10 ^ n

/-- `round(x, 2)` as used in `predict` and for `Within_1_km`. -/
def round2 (q : ℚ) : ℚ := roundTo 2 q

/-- `round(x, 4)` as used for the metric values. -/
def round4 (q : ℚ) : ℚ := roundTo 4 q

/-- `np.mean` of a rational list. -/
def mean (l : List ℚ) : ℚ := l.sum / l.length

/-- `float(np.mean(np.abs(preds - y_test) <= 1) * 100)` — line 76: the
percentage of predictions within 1 unit of the truth. -/
def within1Pct (preds y : List ℚ) : ℚ :=
  mean ((List.zipWith (fun p t => p - t) preds y).map
    (fun e => if |e| ≤ 1 then (1 : ℚ) else 0)) * 100

/-- The snapshot held in `metrics_data` (lines 78-95). -/
structure MetricsSnapshot where
  MAE : ℚ
  RMSE : ℚ
  R2 : ℚ
  Bias : ℚ
  Within_1_km : ℚ
  Grade : String
  deriving DecidableEq

/-- The metrics computation of lines 50-85 when `test.csv` is present, over
the pipeline's predictions `preds` and the truth column `y`
(`np.sqrt` is the external float square root, passed in as `sqrtFn`). -/
def computeMetrics (sqrtFn : ℚ → ℚ) (preds y : List ℚ) : MetricsSnapshot :=
  let errs := List.zipWith (fun p t => p - t) preds y
  let mae := mean (errs.map (fun e => |e|))
  let rmse := sqrtFn (mean (errs.map (fun e => e ^ 2)))
  let r2 := 1 - (errs.map (fun e => e ^ 2)).sum /
      ((y.map (fun t => (t - mean y) ^ 2)).sum)
  let bias := mean errs
  let w1 := within1Pct preds y
  { MAE := round4 mae
    RMSE := round4 rmse
    R2 := round4 r2
    Bias := round4 bias
    Within_1_km := round2 w1
    Grade := if w1 > 75 then "EXCELLENT" else "GOOD" }

/-- The fallback snapshot of lines 88-95, used when `test.csv` is absent. -/
def fallbackMetrics : MetricsSnapshot :=
  { MAE := 1.25
    RMSE := 1.85
    R2 := 0.89
    Bias := -0.12
    Within_1_km := 82.5
    Grade := "EXCELLENT" }

/-- The artifact loaded from `mileage_model.pkl` (lines 34-44): the opaque
pipeline (a single-record predictor), its declared feature names, and the
regressor's `feature_importances_` array. -/
structure ModelArtifact where
  model : List (String × FVal) → ℚ
  features : List String
  importances : List ℚ

/-- The process-wide read-only state populated by `lifespan`
(`ml_models` and `metrics_data`) together with the module-level `city_map`. -/
structure ServerState where
  cityMap : List (String × ℤ)
  model : List (String × FVal) → ℚ
  features : List String
  feature_importance_dict : List (String × ℚ)
  metrics : MetricsSnapshot

/-- `lifespan` — lines 31-95: loads the artifact, builds
`feature_importance_dict = dict(zip(feature_names, importances))`, and fills
`metrics_data` from `test.csv` when present (its prediction/truth columns are
`evalData`; the random traffic-score assignment and the pipeline run happen
upstream of those lists) or from the fallback otherwise. -/
def lifespan (rows : List CityRow) (art : ModelArtifact) (sqrtFn : ℚ → ℚ)
    (evalData : Option (List ℚ × List ℚ)) : ServerState :=
  { cityMap := city_map rows
    model := art.model
    features := art.features
    feature_importance_dict :=
      (art.features.zip art.importances).foldl (fun m p => dictInsert m p.1 p.2) []
    metrics :=
      match evalData with
      | some (preds, y) => computeMetrics sqrtFn preds y
      | none => fallbackMetrics }

/-- `get_metrics` — lines 146-148: returns `metrics_data` verbatim. -/
def get_metrics (st : ServerState) : MetricsSnapshot := st.metrics

/-- The single-row DataFrame built by `predict` — lines 158-168: nine named
columns in source order. -/
def buildInputRecord (st : ServerState) (d : CarInput) : List (String × FVal) :=
  [("Total_km_driven", FVal.num d.Total_km_driven),
   ("Brand", FVal.str d.Brand),
   ("Model", FVal.str d.Model),
   ("Engine_cc", FVal.num d.Engine_cc),
   ("Fuel_type", FVal.str d.Fuel_type.value),
   ("City_traffic_score", FVal.num (lookupCityScore st.cityMap d.City : ℚ)),
   ("Transmission", FVal.str d.Transmission.value),
   ("Age_of_vehicle", FVal.num d.Age_of_vehicle),
   ("Number_of_owners", FVal.num (d.Number_of_owners : ℚ))]

/-- The JSON body returned by `predict` — lines 173-180. -/
structure PredictionResult where
  predicted_mileage : ℚ
  range_low : ℚ
  range_high : ℚ
  feature_importance : List (String × ℚ)

/-- `predict` — lines 150-180: resolve the traffic score, build the one-row
frame, run the pipeline (`model.predict(input_df)[0]`), round, attach
the startup feature-importance dict. -/
def predict (st : ServerState) (d : CarInput) : PredictionResult :=
  let input_df := buildInputRecord st d
  let prediction := st.model input_df
  { predicted_mileage := round2 prediction
    range_low := round2 (prediction - 1)
    range_high := round2 (prediction + 1)
    feature_importance := st.feature_importance_dict }

/-- Pydantic validation of a `float` field: any JSON number is accepted
(no further constraint is declared on the field). -/
def parseFloat (v : JVal) : Except String ℚ :=
  match v with
  | .jnum q => .ok q
  | _ => .error "Input should be a valid number"

/-- Pydantic validation of a `str` field. -/
def parseStr (v : JVal) : Except String String :=
  match v with
  | .jstr s => .ok s
  | _ => .error "Input should be a valid string"

/-- Pydantic validation of an `int` field: a JSON number with no fractional
part (no further constraint is declared on the field). -/
def parseInt (v : JVal) : Except String ℤ :=
  match v with
  | .jnum q => if q.den = 1 then .ok q.num else .error "Input should be a valid integer"
  | _ => .error "Input should be a valid integer"

/-- Pydantic validation of the `FuelType` enum field. -/
def parseFuelType (v : JVal) : Except String FuelType :=
  match v with
  | .jstr "Petrol" => .ok .Petrol
  | .jstr "Diesel" => .ok .Diesel
  | .jstr "CNG" => .ok .CNG
  | .jstr "Electric" => .ok .Electric
  | _ => .error "Input should be Petrol, Diesel, CNG or Electric"

/-- Pydantic validation of the `TransmissionType` enum field. -/
def parseTransmission (v : JVal) : Except String TransmissionType :=
  match v with
  | .jstr "Manual" => .ok .Manual
  | .jstr "Automatic" => .ok .Automatic
  | _ => .error "Input should be Manual or Automatic"

/-- The request-boundary validation FastAPI/pydantic performs on the body of
`POST /api/predict` against the `CarInput` model of lines 128-137: each field
is checked against its declared type; the declared types carry no value
constraints beyond the enums. -/
def validateCarInput (r : RawCarInput) : Except String CarInput :=
  match parseFloat r.Total_km_driven with
  | .error e => .error e
  | .ok km =>
  match parseStr r.Brand with
  | .error e => .error e
  | .ok brand =>
  match parseStr r.Model with
  | .error e => .error e
  | .ok mdl =>
  match parseFloat r.Engine_cc with
  | .error e => .error e
  | .ok cc =>
  match parseFuelType r.Fuel_type with
  | .error e => .error e
  | .ok fuel =>
  match parseStr r.City with
  | .error e => .error e
  | .ok city =>
  match parseTransmission r.Transmission with
  | .error e => .error e
  | .ok tr =>
  match parseFloat r.Age_of_vehicle with
  | .error e => .error e
  | .ok age =>
  match parseInt r.Number_of_owners with
  | .error e => .error e
  | .ok owners =>
    .ok ⟨km, brand, mdl, cc, fuel, city, tr, age, owners⟩

/-- Whether an `Except` result is a success. -/
def exceptIsOk {α : Type} : Except String α → Bool
  | .ok _ => true
  | .error _ => false

/-- The `POST /api/predict` route as FastAPI runs it: the body is validated
against `CarInput` first; only on success does `predict` run. -/
def predictHandler (st : ServerState) (raw : RawCarInput) :
    Except String PredictionResult :=
  match validateCarInput raw with
  | .error e => .error e
  | .ok d => .ok (predict st d)

/-- Demo city table rows for witnesses (one key written with whitespace and
mixed case). -/
def demoCityRows : List CityRow :=
  [⟨" Mumbai ", 82⟩, ⟨"Delhi", 75⟩]

/-- Demo model artifact for witnesses. -/
def demoArtifact : ModelArtifact :=
  { model := fun _ => 20
    features := ["Total_km_driven", "Brand"]
    importances := [3 / 4, 1 / 4] }

/-- Demo validated request body for witnesses. -/
def demoCar : CarInput :=
  ⟨50000, "Toyota", "Corolla", 1800, .Petrol, "Mumbai", .Automatic, 3, 1⟩

/-- A request body with negative `Total_km_driven`, `Age_of_vehicle` and
`Number_of_owners`, all other fields well formed. -/
def negativeRawInput : RawCarInput :=
  { Total_km_driven := .jnum (-50000)
    Brand := .jstr "Toyota"
    Model := .jstr "Corolla"
    Engine_cc := .jnum 1800
    Fuel_type := .jstr "Petrol"
    City := .jstr "Mumbai"
    Transmission := .jstr "Automatic"
    Age_of_vehicle := .jnum (-3)
    Number_of_owners := .jnum (-1) }

/-- A fully well-formed body except for `Fuel_type: "Hybrid"`. -/
def hybridRawInput : RawCarInput :=
  { Total_km_driven := .jnum 50000
    Brand := .jstr "Toyota"
    Model := .jstr "Corolla"
    Engine_cc := .jnum 1800
    Fuel_type := .jstr "Hybrid"
    City := .jstr "Mumbai"
    Transmission := .jstr "Automatic"
    Age_of_vehicle := .jnum 3
    Number_of_owners := .jnum 1 }

/-! ## Association-list (Python dict) lemmas -/

theorem dictFind?_insert {α : Type} (m : List (String × α)) (k knew : String) (v : α) :
    dictFind? (dictInsert m knew v) k = if k = knew then some v else dictFind? m k := by
  induction m with
  | nil => by_cases h : k = knew <;> simp [dictInsert, dictFind?, h]
  | cons p rest ih =>
    obtain ⟨a, b⟩ := p
    by_cases hak : a = knew
    · subst hak
      by_cases hk : k = a <;> simp [dictInsert, dictFind?, hk]
    · by_cases hk : k = a
      · subst hk
        have hkk : ¬(k = knew) := hak
        simp [dictInsert, dictFind?, hak, hkk]
      · simp [dictInsert, dictFind?, hak, hk, ih]

theorem mem_keys_dictInsert {α : Type} (m : List (String × α)) (q k : String) (v : α) :
    q ∈ (dictInsert m k v).map Prod.fst ↔ q = k ∨ q ∈ m.map Prod.fst := by
  induction m with
  | nil => simp [dictInsert]
  | cons p rest ih =>
    obtain ⟨a, b⟩ := p
    by_cases hak : a = k
    · subst hak
      simp [dictInsert]
    · simp [dictInsert, hak, ih]
      tauto

theorem keys_nodup_dictInsert {α : Type} (m : List (String × α)) (k : String) (v : α)
    (h : (m.map Prod.fst).Nodup) : ((dictInsert m k v).map Prod.fst).Nodup := by
  induction m with
  | nil => simp [dictInsert]
  | cons p rest ih =>
    obtain ⟨a, b⟩ := p
    simp only [List.map_cons, List.nodup_cons] at h
    by_cases hak : a = k
    · subst hak
      simpa [dictInsert] using h
    · simp only [dictInsert, hak, if_false, List.map_cons, List.nodup_cons]
      refine ⟨fun hmem => ?_, ih h.2⟩
      rcases (mem_keys_dictInsert rest a k v).mp hmem with h1 | h2
      · exact hak h1
      · exact h.1 h2

theorem dictFind?_eq_none {α : Type} (m : List (String × α)) (k : String)
    (h : k ∉ m.map Prod.fst) : dictFind? m k = none := by
  induction m with
  | nil => rfl
  | cons p rest ih =>
    obtain ⟨a, b⟩ := p
    simp only [List.map_cons, List.mem_cons] at h
    push_neg at h
    simp [dictFind?, h.1, ih h.2]

theorem dictFind?_of_mem {α : Type} (m : List (String × α)) (k : String) (v : α)
    (hnd : (m.map Prod.fst).Nodup) (hm : (k, v) ∈ m) : dictFind? m k = some v := by
  induction m with
  | nil => cases hm
  | cons p rest ih =>
    obtain ⟨a, b⟩ := p
    simp only [List.map_cons, List.nodup_cons] at hnd
    rcases List.mem_cons.mp hm with h1 | h2
    · injection h1 with h1a h1b
      subst h1a
      subst h1b
      simp [dictFind?]
    · have hka : ¬(k = a) := by
        intro hka
        subst hka
        exact hnd.1 (List.mem_map.mpr ⟨(k, v), h2, rfl⟩)
      simp [dictFind?, hka, ih hnd.2 h2]

/-! ## `city_map` construction lemmas -/

theorem city_map_foldl_keys_nodup (rows : List CityRow) (m0 : List (String × ℤ))
    (h : (m0.map Prod.fst).Nodup) :
    ((rows.foldl (fun m r => dictInsert m (normKey r.city) r.traffic_score) m0).map
      Prod.fst).Nodup := by
  induction rows generalizing m0 with
  | nil => exact h
  | cons r rest ih =>
    exact ih _ (keys_nodup_dictInsert m0 (normKey r.city) r.traffic_score h)

theorem city_map_keys_nodup (rows : List CityRow) :
    ((city_map rows).map Prod.fst).Nodup :=
  city_map_foldl_keys_nodup rows [] (by simp)

theorem mem_keys_city_map_foldl (rows : List CityRow) (m0 : List (String × ℤ))
    (k : String) :
    k ∈ (rows.foldl (fun m r => dictInsert m (normKey r.city) r.traffic_score) m0).map
        Prod.fst
      ↔ k ∈ m0.map Prod.fst ∨ ∃ r ∈ rows, normKey r.city = k := by
  induction rows generalizing m0 with
  | nil => simp
  | cons r rest ih =>
    rw [List.foldl_cons, ih, mem_keys_dictInsert]
    constructor
    · rintro ((h | h) | ⟨x, hx, hk⟩)
      · exact Or.inr ⟨r, List.mem_cons_self r rest, h.symm⟩
      · exact Or.inl h
      · exact Or.inr ⟨x, List.mem_cons_of_mem r hx, hk⟩
    · rintro (h | ⟨x, hx, hk⟩)
      · exact Or.inl (Or.inr h)
      · rcases List.mem_cons.mp hx with rfl | hx2
        · exact Or.inl (Or.inl hk.symm)
        · exact Or.inr ⟨x, hx2, hk⟩

theorem mem_keys_city_map (rows : List CityRow) (k : String) :
    k ∈ (city_map rows).map Prod.fst ↔ ∃ r ∈ rows, normKey r.city = k := by
  have := mem_keys_city_map_foldl rows [] k
  simpa [city_map] using this

theorem dictFind?_city_map_foldl_of_all_ne (rows : List CityRow)
    (m0 : List (String × ℤ)) (k : String) (h : ∀ r ∈ rows, normKey r.city ≠ k) :
    dictFind?
        (rows.foldl (fun m r => dictInsert m (normKey r.city) r.traffic_score) m0) k
      = dictFind? m0 k := by
  induction rows generalizing m0 with
  | nil => rfl
  | cons r rest ih =>
    have hr : normKey r.city ≠ k := h r (List.mem_cons_self r rest)
    have hrest : ∀ x ∈ rest, normKey x.city ≠ k := fun x hx => h x (List.mem_cons_of_mem r hx)
    simp only [List.foldl_cons, ih _ hrest, dictFind?_insert]
    exact if_neg (fun hk => hr hk.symm)

/-! ## C1, C10 -/

/-- C1: the traffic-score lookup normalizes by strip+lower, returns the stored
score when the normalized name is a key of `city_map`, returns 50 otherwise,
and is insensitive to whitespace/case differences (totality is inherent: it is
a Lean function). -/
theorem lookup_city_score_spec (rows : List CityRow) (city : String) :
    (∀ v : ℤ, (normKey city, v) ∈ city_map rows →
      lookupCityScore (city_map rows) city = v)
    ∧ ((¬∃ r ∈ rows, normKey r.city = normKey city) →
      lookupCityScore (city_map rows) city = 50)
    ∧ (∀ s : String, normKey s = normKey city →
      lookupCityScore (city_map rows) s = lookupCityScore (city_map rows) city) := by
  refine ⟨fun v hv => ?_, fun hno => ?_, fun s hs => ?_⟩
  · unfold lookupCityScore dictGet
    rw [dictFind?_of_mem _ _ _ (city_map_keys_nodup rows) hv]
    rfl
  · have hk : normKey city ∉ (city_map rows).map Prod.fst := by
      rw [mem_keys_city_map]
      exact hno
    unfold lookupCityScore dictGet
    rw [dictFind?_eq_none _ _ hk]
    rfl
  · unfold lookupCityScore dictGet
    rw [hs]

/-- C1 witness: concrete evaluations of the lookup on a known city written
with extra whitespace/capitals, and on an unknown city. -/
theorem lookup_city_score_spec_witness :
    lookupCityScore (city_map demoCityRows) "  MUMBAI " = 82
    ∧ lookupCityScore (city_map demoCityRows) "Pune" = 50 :=
  ⟨(lookup_city_score_spec demoCityRows "  MUMBAI ").1 82 (by decide),
   (lookup_city_score_spec demoCityRows "Pune").2.1 (by decide)⟩

/-- C10: when several source rows share a normalized city name, the
constructed `city_map` stores the traffic score of the last such row in
iteration order: if row `r` is followed only by rows with other normalized
names, the lookup of its city returns its score. -/
theorem city_map_last_occurrence_wins (l₁ l₂ : List CityRow) (r : CityRow)
    (h : ∀ x ∈ l₂, normKey x.city ≠ normKey r.city) :
    lookupCityScore (city_map (l₁ ++ r :: l₂)) r.city = r.traffic_score := by
  unfold lookupCityScore dictGet
  unfold city_map
  rw [List.foldl_append, List.foldl_cons]
  rw [dictFind?_city_map_foldl_of_all_ne l₂ _ _ h]
  rw [dictFind?_insert]
  simp

/-- C10 witness: with two rows normalizing to "mumbai" (scores 82 then 60)
followed by an unrelated row, the lookup returns 60, the later score. -/
theorem city_map_last_occurrence_wins_witness :
    lookupCityScore
        (city_map [⟨" Mumbai ", 82⟩, ⟨"MUMBAI", 60⟩, ⟨"Delhi", 75⟩])
        "MUMBAI" = 60 :=
  city_map_last_occurrence_wins [⟨" Mumbai ", 82⟩] [⟨"Delhi", 75⟩] ⟨"MUMBAI", 60⟩
    (by decide)

/-! ## Rounding lemmas and C2 -/

theorem roundHalfEven_add_hundred (q : ℚ) :
    roundHalfEven (q + 100) = roundHalfEven q + 100 := by
  unfold roundHalfEven
  have hfloor : ⌊q + (100 : ℚ)⌋ = ⌊q⌋ + 100 := by
    rw [show (100 : ℚ) = ((100 : ℤ) : ℚ) by norm_num, Int.floor_add_int]
  rw [hfloor]
  have hsub : q + 100 - ((⌊q⌋ + 100 : ℤ) : ℚ) = q - ⌊q⌋ := by
    push_cast
    ring
  rw [hsub]
  have hpar : (⌊q⌋ + 100) % 2 = ⌊q⌋ % 2 := by omega
  rw [hpar]
  split_ifs <;> omega

theorem round2_add_one (x : ℚ) : round2 (x + 1) = round2 x + 1 := by
  unfold round2 roundTo
  have h : (x + 1) * 10 ^ 2 = x * 10 ^ 2 + 100 := by ring
  rw [h, roundHalfEven_add_hundred]
  push_cast
  ring

theorem round2_sub_one (x : ℚ) : round2 (x - 1) = round2 x - 1 := by
  have h := round2_add_one (x - 1)
  have h2 : x - 1 + 1 = x := by ring
  rw [h2] at h
  linarith

/-- C2: the `range` of every `PredictionResult` is exactly
`[predicted_mileage - 1, predicted_mileage + 1]` (both endpoints being the
2-decimal roundings the code computes), so the pair is ascending and exactly
2 apart around the reported `predicted_mileage`. -/
theorem predict_range_spec (st : ServerState) (d : CarInput) :
    (predict st d).range_low = (predict st d).predicted_mileage - 1
    ∧ (predict st d).range_high = (predict st d).predicted_mileage + 1
    ∧ (predict st d).range_low < (predict st d).range_high
    ∧ (predict st d).range_high - (predict st d).range_low = 2 := by
  have hlow : (predict st d).range_low
      = round2 (st.model (buildInputRecord st d) - 1) := rfl
  have hhigh : (predict st d).range_high
      = round2 (st.model (buildInputRecord st d) + 1) := rfl
  have hmid : (predict st d).predicted_mileage
      = round2 (st.model (buildInputRecord st d)) := rfl
  rw [hlow, hhigh, hmid, round2_sub_one, round2_add_one]
  refine ⟨rfl, rfl, by linarith, by ring⟩

/-! ## C5: GET /cities -/

/-- C5: `GET /cities` returns a list sorted in ascending order whose entries
are exactly the title-cased keys of `city_map`; those keys are
duplicate-free and are exactly the normalized (stripped, lowercased) city
names of the source table, and the output length equals the number of
distinct normalized city keys. -/
theorem get_cities_spec (rows : List CityRow) :
    (get_cities (city_map rows)).Sorted (· ≤ ·)
    ∧ (get_cities (city_map rows)).Perm
        ((city_map rows).map (fun p => titleCase p.1))
    ∧ ((city_map rows).map Prod.fst).Nodup
    ∧ (∀ k, k ∈ (city_map rows).map Prod.fst ↔ ∃ r ∈ rows, normKey r.city = k)
    ∧ (get_cities (city_map rows)).length
        = ((rows.map (fun r => normKey r.city)).dedup).length := by
  refine ⟨List.sorted_insertionSort _ _, List.perm_insertionSort _ _,
    city_map_keys_nodup rows, mem_keys_city_map rows, ?_⟩
  have hlen1 : (get_cities (city_map rows)).length
      = ((city_map rows).map Prod.fst).length := by
    unfold get_cities
    rw [List.length_insertionSort, List.length_map, List.length_map]
  rw [hlen1]
  have hperm : ((city_map rows).map Prod.fst).Perm
      ((rows.map (fun r => normKey r.city)).dedup) := by
    rw [List.perm_ext_iff_of_nodup (city_map_keys_nodup rows) (List.nodup_dedup _)]
    intro k
    rw [mem_keys_city_map, List.mem_dedup, List.mem_map]
  exact hperm.length_eq

/-! ## C6: the feature record -/

/-- C6: `predict` assembles one feature record with exactly the nine named
fields in source order — total km driven, brand, model, engine cc, the fuel
type's string label, the resolved city traffic score (column
`City_traffic_score`), the transmission's string label, vehicle age, number of
owners — and the pipeline is invoked on exactly that single record. -/
theorem predict_record_spec (st : ServerState) (d : CarInput) :
    (buildInputRecord st d).map Prod.fst =
      ["Total_km_driven", "Brand", "Model", "Engine_cc", "Fuel_type",
       "City_traffic_score", "Transmission", "Age_of_vehicle",
       "Number_of_owners"]
    ∧ buildInputRecord st d =
      [("Total_km_driven", FVal.num d.Total_km_driven),
       ("Brand", FVal.str d.Brand),
       ("Model", FVal.str d.Model),
       ("Engine_cc", FVal.num d.Engine_cc),
       ("Fuel_type", FVal.str d.Fuel_type.value),
       ("City_traffic_score", FVal.num (lookupCityScore st.cityMap d.City : ℚ)),
       ("Transmission", FVal.str d.Transmission.value),
       ("Age_of_vehicle", FVal.num d.Age_of_vehicle),
       ("Number_of_owners", FVal.num (d.Number_of_owners : ℚ))]
    ∧ (predict st d).predicted_mileage = round2 (st.model (buildInputRecord st d)) :=
  ⟨rfl, rfl, rfl⟩

/-! ## C7, C8: metrics -/

/-- C7: with the evaluation dataset present, the snapshot's grade is
EXCELLENT exactly when the computed within-1-unit percentage exceeds 75, and
GOOD exactly otherwise. -/
theorem metrics_grade_spec (rows : List CityRow) (art : ModelArtifact)
    (sqrtFn : ℚ → ℚ) (preds y : List ℚ) :
    ((lifespan rows art sqrtFn (some (preds, y))).metrics.Grade = "EXCELLENT"
      ↔ within1Pct preds y > 75)
    ∧ ((lifespan rows art sqrtFn (some (preds, y))).metrics.Grade = "GOOD"
      ↔ ¬within1Pct preds y > 75) := by
  have hg : (lifespan rows art sqrtFn (some (preds, y))).metrics.Grade
      = if within1Pct preds y > 75 then "EXCELLENT" else "GOOD" := rfl
  rw [hg]
  have hne : ("EXCELLENT" : String) ≠ "GOOD" := by decide
  by_cases h : within1Pct preds y > 75
  · simp [h]
  · simp [h, hne]

/-- C8: with the evaluation dataset absent at startup, the snapshot equals the
fixed fallback values (MAE 1.25, RMSE 1.85, R² 0.89, Bias −0.12,
within-1 82.5, grade EXCELLENT), and `GET /metrics` returns exactly it. -/
theorem metrics_fallback_spec (rows : List CityRow) (art : ModelArtifact)
    (sqrtFn : ℚ → ℚ) :
    (lifespan rows art sqrtFn none).metrics
      = { MAE := 1.25, RMSE := 1.85, R2 := 0.89, Bias := -0.12,
          Within_1_km := 82.5, Grade := "EXCELLENT" }
    ∧ get_metrics (lifespan rows art sqrtFn none)
      = (lifespan rows art sqrtFn none).metrics :=
  ⟨rfl, rfl⟩

/-! ## C9: feature importance -/

theorem keys_dictInsert_of_fresh {α : Type} (m : List (String × α)) (k : String)
    (v : α) (h : k ∉ m.map Prod.fst) :
    (dictInsert m k v).map Prod.fst = m.map Prod.fst ++ [k] := by
  induction m with
  | nil => simp [dictInsert]
  | cons p rest ih =>
    obtain ⟨a, b⟩ := p
    simp only [List.map_cons, List.mem_cons] at h
    push_neg at h
    have hak : ¬(a = k) := fun hh => h.1 hh.symm
    simp [dictInsert, hak, ih h.2]

theorem keys_foldl_dictInsert_fresh {α : Type} (l : List (String × α))
    (m0 : List (String × α)) (hnd : (l.map Prod.fst).Nodup)
    (hfresh : ∀ k ∈ l.map Prod.fst, k ∉ m0.map Prod.fst) :
    (l.foldl (fun m p => dictInsert m p.1 p.2) m0).map Prod.fst
      = m0.map Prod.fst ++ l.map Prod.fst := by
  induction l generalizing m0 with
  | nil => simp
  | cons p rest ih =>
    obtain ⟨k, v⟩ := p
    simp only [List.map_cons, List.nodup_cons] at hnd
    have hk0 : k ∉ m0.map Prod.fst := hfresh k (by simp)
    have happ : (dictInsert m0 k v).map Prod.fst = m0.map Prod.fst ++ [k] :=
      keys_dictInsert_of_fresh m0 k v hk0
    have hfresh2 : ∀ q ∈ rest.map Prod.fst, q ∉ (dictInsert m0 k v).map Prod.fst := by
      intro q hq hmem
      rcases (mem_keys_dictInsert m0 q k v).mp hmem with h1 | h2
      · exact hnd.1 (h1 ▸ hq)
      · exact hfresh q (List.mem_cons_of_mem _ hq) h2
    rw [List.foldl_cons, ih _ hnd.2 hfresh2, happ]
    simp

/-- C9: the `feature_importance` mapping attached to every result has as key
list exactly the artifact's declared feature names (given that the artifact's
name list is duplicate-free and its importance array has matching length, as a
fitted pipeline guarantees), and every request returns the single dict
computed once at startup. -/
theorem feature_importance_spec (rows : List CityRow) (art : ModelArtifact)
    (sqrtFn : ℚ → ℚ) (evalData : Option (List ℚ × List ℚ))
    (h1 : art.features.Nodup) (h2 : art.importances.length = art.features.length) :
    ((lifespan rows art sqrtFn evalData).feature_importance_dict.map Prod.fst
      = art.features)
    ∧ (∀ d : CarInput,
        (predict (lifespan rows art sqrtFn evalData) d).feature_importance
          = (lifespan rows art sqrtFn evalData).feature_importance_dict) := by
  constructor
  · have hmapfst : (art.features.zip art.importances).map Prod.fst = art.features :=
      List.map_fst_zip _ _ (le_of_eq h2.symm)
    have hnd : ((art.features.zip art.importances).map Prod.fst).Nodup := by
      rw [hmapfst]
      exact h1
    show ((art.features.zip art.importances).foldl
        (fun m p => dictInsert m p.1 p.2) []).map Prod.fst = art.features
    rw [keys_foldl_dictInsert_fresh _ [] hnd (by simp)]
    simp [hmapfst]
  · intro d
    rfl

/-- C9 witness: concrete artifact with two distinct features and two
importances; the dict's keys are those features and a concrete request gets
exactly the startup dict back. -/
theorem feature_importance_spec_witness :
    ((lifespan demoCityRows demoArtifact id none).feature_importance_dict.map
        Prod.fst = demoArtifact.features)
    ∧ (predict (lifespan demoCityRows demoArtifact id none) demoCar).feature_importance
      = (lifespan demoCityRows demoArtifact id none).feature_importance_dict :=
  ⟨(feature_importance_spec demoCityRows demoArtifact id none (by decide) (by decide)).1,
   (feature_importance_spec demoCityRows demoArtifact id none (by decide) (by decide)).2
      demoCar⟩

/-! ## C3, C4: request-boundary validation -/

/-- C3 counterexample: the declared `CarInput` fields carry no `≥ 0`
constraint, so a body whose `Total_km_driven`, `Age_of_vehicle` and
`Number_of_owners` are all negative passes validation and the handler invokes
the model rather than rejecting the request. -/
theorem carInput_negative_accepted :
    validateCarInput negativeRawInput
      = Except.ok ⟨-50000, "Toyota", "Corolla", 1800, .Petrol, "Mumbai",
          .Automatic, -3, -1⟩
    ∧ exceptIsOk (predictHandler (lifespan demoCityRows demoArtifact id none)
        negativeRawInput) = true :=
  ⟨rfl, rfl⟩

/-- C3 amended: `POST /predict` validates the body against `CarInput` at the
request boundary, rejecting type- and enum-malformed input before the model
is reached; the numeric fields are declared as plain `float`/`int` with no
non-negativity constraint, so any values — negative included — are accepted. -/
theorem carInput_validation_amended (km cc age : ℚ) (owners : ℤ)
    (brand mdl city : String) :
    validateCarInput ⟨.jnum km, .jstr brand, .jstr mdl, .jnum cc, .jstr "Diesel",
        .jstr city, .jstr "Manual", .jnum age, .jnum (owners : ℚ)⟩
      = Except.ok ⟨km, brand, mdl, cc, .Diesel, city, .Manual, age, owners⟩
    ∧ exceptIsOk (validateCarInput
        { negativeRawInput with Total_km_driven := .jstr "not a number" }) = false := by
  constructor
  · unfold validateCarInput parseFloat parseStr parseFuelType parseTransmission parseInt
    simp [Rat.den_intCast, Rat.num_intCast]
  · rfl

/-- C4: any request body whose `Fuel_type` is the string "Hybrid" (not an
enum member) fails validation, and the `POST /predict` handler answers with
the validation error for every server state — the model is never invoked. -/
theorem hybrid_fuel_rejected (raw : RawCarInput)
    (h : raw.Fuel_type = .jstr "Hybrid") :
    exceptIsOk (validateCarInput raw) = false
    ∧ ∀ st : ServerState, exceptIsOk (predictHandler st raw) = false := by
  have hval : exceptIsOk (validateCarInput raw) = false := by
    unfold validateCarInput
    rw [h]
    cases parseFloat raw.Total_km_driven <;>
      cases parseStr raw.Brand <;>
        cases parseStr raw.Model <;>
          cases parseFloat raw.Engine_cc <;>
            rfl
  refine ⟨hval, fun st => ?_⟩
  unfold predictHandler
  cases hv : validateCarInput raw with
  | error e => rfl
  | ok d =>
    rw [hv] at hval
    cases hval

/-- C4 witness: the concrete "Hybrid" body fails validation and the handler
rejects it on a concrete server state. -/
theorem hybrid_fuel_rejected_witness :
    exceptIsOk (validateCarInput hybridRawInput) = false
    ∧ exceptIsOk (predictHandler (lifespan demoCityRows demoArtifact id none)
        hybridRawInput) = false :=
  ⟨(hybrid_fuel_rejected hybridRawInput rfl).1,
   (hybrid_fuel_rejected hybridRawInput rfl).2
      (lifespan demoCityRows demoArtifact id none)⟩

